import Mathlib

/-!
Shallow embedding of the interactive core of the bookhood-web landing page:
the `MarqueeRail` component (src/app/_components/marquee-rail.tsx), the
`LaunchModal` dialog controller with its focus trap (launch-modal component),
the `PrimaryCtaButton` submit control, and the `HomePage` open/close wiring.

Pure rendering logic is embedded as Lean functions; the event-driven modal
lifecycle is embedded as an explicit step function on a state record, with
user/browser events as an `Action` type.  Browser/DOM facts the component
relies on are part of the embedding and are noted where they are used:
a `disabled` submit control cannot be activated, React re-runs the modal
effect exactly when the `open` prop actually changes (a state update to the
current value bails out), and an event listener that has been removed does
not run.
-/

namespace Bookhood

/-! ## MarqueeRail (marquee-rail.tsx) -/

/-- `const marqueeItems = [...items, ...items];` — the input sequence
duplicated exactly once, in order. -/
def marqueeItems {T : Type} (items : List T) : List T :=
  items ++ items

/-- `marqueeItems.map((item, index) => renderItem(item, index))` — the track
renders every duplicated item through the render callback with its index in
the duplicated list. -/
def renderedTrack {T R : Type} (items : List T) (renderItem : T → Nat → R) : List R :=
  (marqueeItems items).mapIdx (fun i a => renderItem a i)

/-- Width of a flex track of `count` items of uniform width `w` separated by
gaps `g` (a gap between adjacent items only, so `count - 1` gaps; an empty
track has width 0). -/
def trackLen (count : Nat) (w g : ℚ) : ℚ :=
  if count = 0 then 0 else (count : ℚ) * w + ((count - 1 : Nat) : ℚ) * g

/-- Magnitude of the loop translation set by the component,
`"--marquee-distance": calc(-50% - var(gap))`: 50% of the rail's own width
(the track of `2 * n` rendered items) plus one gap. -/
def marqueeDistance (n : Nat) (w g : ℚ) : ℚ :=
  trackLen (2 * n) w g / 2 + g

/-- The translation that maps rendered item `i + n` onto the position of
rendered item `i`: `n` item widths plus `n` gaps. A translation by exactly
this amount makes the duplicated track coincide with the untranslated one. -/
def copyOffset (n : Nat) (w g : ℚ) : ℚ :=
  (n : ℚ) * (w + g)

/-! ## PrimaryCtaButton (primary-cta-button component) -/

/-- The accessibility-relevant attributes rendered on the native button. -/
structure ButtonAttrs where
  disabled : Bool
  ariaDisabled : Option Bool
deriving DecidableEq, Repr

/-- `<button disabled={disabled} aria-disabled={disabled || undefined} ...>`:
the native `disabled` attribute always mirrors the prop, and `aria-disabled`
is `true` when disabled and absent (`undefined`) otherwise. -/
def primaryCtaButton (disabled : Bool) : ButtonAttrs :=
  { disabled := disabled
    ariaDisabled := if disabled then some true else none }

/-! ## LaunchModal data model -/

inductive SubmissionStatus where
  | idle
  | success
deriving DecidableEq, Repr

/-- DOM elements are identified abstractly. -/
abbrev Elem := Nat

/-- The dialog's email input (`inputRef`), as an abstract element. -/
def inputElem : Elem := 0

/-- JavaScript `String.prototype.trim` whitespace: WhiteSpace
(tab, VT, FF, space, NBSP, BOM, and Unicode space separators) together with
LineTerminator (LF, CR, LS, PS). -/
def isJsWhitespace (c : Char) : Bool :=
  c = ' ' || c = '\t' || c = '\n' || c = '\r' ||
  c.val = 0x0B || c.val = 0x0C || c.val = 0xA0 || c.val = 0xFEFF ||
  c.val = 0x1680 || (0x2000 ≤ c.val && c.val ≤ 0x200A) ||
  c.val = 0x2028 || c.val = 0x2029 || c.val = 0x202F || c.val = 0x3000

/-- JavaScript `s.trim()`: strip leading and trailing whitespace. -/
def jsTrim (s : String) : String :=
  ⟨((s.data.dropWhile isJsWhitespace).reverse.dropWhile isJsWhitespace).reverse⟩

/-- `const isSubmitDisabled = useMemo(() => email.trim().length === 0, [email]);` -/
def isSubmitDisabled (email : String) : Bool :=
  (jsTrim email).length == 0

/-- The static `benefits` list rendered inside the dialog. -/
def benefits : List String :=
  ["Early access to the app the moment stores approve it",
   "Launch-week bonus credits for your first swaps",
   "Invites to community pilot events and beta groups"]

/-! ## Focus trap (handleKeyDown, Tab branch) -/

/-- The Tab branch of `handleKeyDown`.  `focusable` is the list produced by
`querySelectorAll` on the dialog panel at the time of this key press (the
code queries inside the handler, so the list is recomputed per event, never
cached).  Returns `(preventDefault, newFocus)` where `newFocus = some e`
means the handler called `e.focus()` and `none` means it did not move focus.

Source:
- empty list: `event.preventDefault(); return;`
- `first = focusable[0]`, `last = focusable[focusable.length - 1]`;
- `!shift && activeElement === last`: prevent default, `first.focus()`;
- `shift && activeElement === first`: prevent default, `last.focus()`;
- otherwise fall through to default browser navigation. -/
def handleTab (focusable : List Elem) (shift : Bool) (active : Option Elem) :
    Bool × Option Elem :=
  match focusable with
  | [] => (true, none)
  | e :: rest =>
    let first := e
    let last := (e :: rest).getLast (List.cons_ne_nil e rest)
    if !shift && active == some last then (true, some first)
    else if shift && active == some first then (true, some last)
    else (false, none)

/-! ## Modal lifecycle state machine

The combined state of `HomePage` (`isModalOpen`), `LaunchModal`
(`email`, `status`, `lastFocusedRef`) and the document-level resources the
open-effect manages (keydown listener, deferred focus timer, body scroll
lock, `document.activeElement`). -/

structure SystemState where
  isOpen : Bool
  email : String
  status : SubmissionStatus
  /-- `lastFocusedRef.current`: the element focused before the dialog opened. -/
  lastFocused : Option Elem
  /-- `document.activeElement` (none models a null/body active element). -/
  active : Option Elem
  /-- whether the `keydown` listener of the focus trap is attached. -/
  listenerAttached : Bool
  /-- whether the deferred focus-the-input timeout is still pending. -/
  timerPending : Bool
  /-- whether `body { overflow: hidden }` (scroll lock) is set. -/
  overflowHidden : Bool
deriving DecidableEq, Repr

/-- Page load: dialog closed, empty form, no resources held. -/
def initState : SystemState :=
  { isOpen := false, email := "", status := .idle, lastFocused := none,
    active := none, listenerAttached := false, timerPending := false,
    overflowHidden := false }

/-- Effect body when `open` flips to true: record `document.activeElement`
into `lastFocusedRef`, set the scroll lock, schedule the deferred
`inputRef.current?.focus()` timeout, attach the keydown listener. -/
def openTransition (s : SystemState) : SystemState :=
  { s with
    isOpen := true
    lastFocused := s.active
    listenerAttached := true
    timerPending := true
    overflowHidden := true }

/-- When `open` flips to false: the effect cleanup removes the keydown
listener, clears the pending timeout and removes the scroll lock, then the
effect body for `open = false` resets `status` to idle, `email` to `""`,
and calls `lastFocusedRef.current?.focus()` (a no-op when nothing was
recorded). -/
def closeTransition (s : SystemState) : SystemState :=
  { s with
    isOpen := false
    email := ""
    status := .idle
    listenerAttached := false
    timerPending := false
    overflowHidden := false
    active := match s.lastFocused with | some e => some e | none => s.active }

/-- User/browser events.  `keyTab` carries the focusable list the DOM query
would return at the moment of the key press. -/
inductive Action where
  /-- `openModal` (hero / footer trigger): `setIsModalOpen(true)`. -/
  | openM
  /-- the explicit close button: `onClose()`. -/
  | closeBtn
  /-- click on the overlay outside the panel: the overlay `onClick={onClose}`. -/
  | outsideClick
  /-- click inside the panel: `event.stopPropagation()` — never reaches the
  overlay's close handler. -/
  | insideClick
  /-- Escape keydown: the listener calls `preventDefault` then `onClose()`. -/
  | escape
  /-- typing in the email input: `onChange` sets `email` to the new value. -/
  | typeEmail (value : String)
  /-- activating the submit control (click or implicit form submission). -/
  | submit
  /-- the deferred focus timeout fires: `inputRef.current?.focus()`. -/
  | timerFire
  /-- Tab / Shift+Tab keydown; `dom` is the focusable list at press time. -/
  | keyTab (dom : List Elem) (shift : Bool)
  /-- the user moves focus elsewhere in the page (click, mouse focus). -/
  | userFocus (e : Option Elem)
deriving DecidableEq, Repr

/-- One event of the combined system.  DOM semantics encoded here:
a `setIsModalOpen` to the value it already has bails out (no re-render, the
effect does not re-run), controls that are not rendered (`closeBtn`,
`typeEmail` while closed) produce no events, a `disabled` submit button
cannot be activated, so no `submit` event fires while `isSubmitDisabled`
(the input's `required`/`type=email` constraints block the remaining
implicit-submission path for such values as well), and a removed keydown
listener does not run.  When the Tab handler does not intercept
(`preventDefault = false`), the browser's default focus navigation is
outside the model and `active` is left unchanged. -/
def step (s : SystemState) : Action → SystemState
  | .openM => if s.isOpen then s else openTransition s
  | .closeBtn => if s.isOpen then closeTransition s else s
  | .outsideClick => if s.isOpen then closeTransition s else s
  | .insideClick => s
  | .escape =>
      if s.listenerAttached then
        (if s.isOpen then closeTransition s else s)
      else s
  | .typeEmail v => if s.isOpen then { s with email := v } else s
  | .submit =>
      if s.isOpen && !(isSubmitDisabled s.email) then
        { s with status := .success }
      else s
  | .timerFire =>
      if s.timerPending then
        { s with active := some inputElem, timerPending := false }
      else s
  | .keyTab dom shift =>
      if s.listenerAttached then
        match handleTab dom shift s.active with
        | (_, some e) => { s with active := some e }
        | (_, none) => s
      else s
  | .userFocus e => { s with active := e }

/-- Run a sequence of events from a state. -/
def run (s : SystemState) : List Action → SystemState
  | [] => s
  | a :: rest => run (step s a) rest

/-! ## Rendering (the JSX returned by LaunchModal) -/

/-- What the dialog contributes to the DOM while rendered. -/
structure RenderedModal where
  emailField : Bool
  emailValue : String
  benefitsCount : Nat
  submitButton : ButtonAttrs
  successRegion : Bool
  closeButton : Bool
deriving DecidableEq, Repr

/-- `if (!open) return null;` then the overlay/panel JSX: the email input
(with the current `email` value), the benefits list, the submit control with
the gating attributes, the close button, and the success region exactly when
`status === "success"`. -/
def renderModal (isOpen : Bool) (email : String) (status : SubmissionStatus) :
    Option RenderedModal :=
  if isOpen then
    some { emailField := true
           emailValue := email
           benefitsCount := benefits.length
           submitButton := primaryCtaButton (isSubmitDisabled email)
           successRegion := match status with | .success => true | .idle => false
           closeButton := true }
  else none

end Bookhood
namespace Bookhood

/-- The modal invariant maintained by every event: a closed dialog holds a
reset form, the keydown listener is attached exactly while the dialog is
open, and the deferred focus timeout is pending only while it is open. -/
def Inv (s : SystemState) : Prop :=
  (s.isOpen = false → s.email = "" ∧ s.status = .idle) ∧
  s.listenerAttached = s.isOpen ∧
  (s.timerPending = true → s.isOpen = true)

lemma string_length_eq_zero (s : String) : s.length = 0 ↔ s = "" := by
  cases s with
  | mk data => simp [String.length, String.ext_iff, List.length_eq_zero]

lemma inv_init : Inv initState :=
  ⟨fun _ => ⟨rfl, rfl⟩, rfl, fun h => nomatch h⟩

lemma step_keyTab_cases (s : SystemState) (dom : List Elem) (sh : Bool) :
    step s (.keyTab dom sh) = s ∨
    ∃ e : Elem, step s (.keyTab dom sh) = { s with active := some e } := by
  unfold step
  cases h : s.listenerAttached with
  | false => left; simp
  | true =>
    rcases hh : handleTab dom sh s.active with ⟨pd, nf⟩
    cases nf with
    | none => left; simp [hh]
    | some e => right; exact ⟨e, by simp [hh]⟩

lemma inv_step (s : SystemState) (a : Action) (h : Inv s) : Inv (step s a) := by
  obtain ⟨h1, h2, h3⟩ := h
  cases a with
  | openM =>
    cases ho : s.isOpen <;>
      simp_all [step, openTransition, Inv]
  | closeBtn =>
    cases ho : s.isOpen <;> simp_all [step, closeTransition, Inv]
  | outsideClick =>
    cases ho : s.isOpen <;> simp_all [step, closeTransition, Inv]
  | insideClick => exact ⟨h1, h2, h3⟩
  | escape =>
    cases hl : s.listenerAttached <;> cases ho : s.isOpen <;>
      simp_all [step, closeTransition, Inv]
  | typeEmail v =>
    cases ho : s.isOpen <;> simp_all [step, Inv]
  | submit =>
    by_cases hc : (s.isOpen && !(isSubmitDisabled s.email)) = true
    · have ho : s.isOpen = true := (Bool.and_eq_true _ _ |>.mp hc).1
      simp only [step, if_pos hc]
      exact ⟨by simp [ho], by simp [h2], by simpa using h3⟩
    · simp only [step, if_neg hc]
      exact ⟨h1, h2, h3⟩
  | timerFire =>
    cases ht : s.timerPending <;> simp_all [step, Inv]
  | keyTab dom sh =>
    rcases step_keyTab_cases s dom sh with heq | ⟨e, heq⟩ <;>
      simp_all [Inv]
  | userFocus e => exact ⟨h1, h2, h3⟩

lemma inv_run (acts : List Action) : ∀ s : SystemState, Inv s → Inv (run s acts) := by
  induction acts with
  | nil => intro s h; exact h
  | cons a rest ih => intro s h; exact ih _ (inv_step s a h)

lemma inv_reach (acts : List Action) : Inv (run initState acts) :=
  inv_run acts _ inv_init

end Bookhood
namespace Bookhood

lemma handleTab_wrap_forward (l : List Elem) (hl : l ≠ [])
    (a : Option Elem) (ha : a = some (l.getLast hl)) :
    handleTab l false a = (true, some (l.head hl)) := by
  cases l with
  | nil => exact absurd rfl hl
  | cons e rest =>
    subst ha
    simp [handleTab]

lemma handleTab_wrap_backward (l : List Elem) (hl : l ≠ [])
    (a : Option Elem) (ha : a = some (l.head hl)) :
    handleTab l true a = (true, some (l.getLast hl)) := by
  cases l with
  | nil => exact absurd rfl hl
  | cons e rest =>
    subst ha
    simp [handleTab]

lemma step_keyTab_focus (s : SystemState) (hA : s.listenerAttached = true)
    (dom : List Elem) (sh : Bool) (e : Elem)
    (h : (handleTab dom sh s.active).2 = some e) :
    (step s (.keyTab dom sh)).active = some e := by
  unfold step
  rcases hh : handleTab dom sh s.active with ⟨pd, nf⟩
  rw [hh] at h
  cases nf with
  | none => exact absurd h (by simp)
  | some x =>
    simp only [Prod.snd] at h
    simp [hA, hh, h]

lemma step_keyTab_listener (s : SystemState) (dom : List Elem) (sh : Bool) :
    (step s (.keyTab dom sh)).listenerAttached = s.listenerAttached := by
  rcases step_keyTab_cases s dom sh with heq | ⟨e, heq⟩ <;> simp [heq]

lemma step_keyTab_status (s : SystemState) (dom : List Elem) (sh : Bool) :
    (step s (.keyTab dom sh)).status = s.status := by
  rcases step_keyTab_cases s dom sh with heq | ⟨e, heq⟩ <;> simp [heq]

end Bookhood
namespace Bookhood

/-! ## Claim theorems -/

/-- C10: for every props value with `open = false`, the LaunchModal render
function returns null — the closed dialog contributes no DOM at all. -/
theorem closed_renders_nothing (email : String) (status : SubmissionStatus) :
    renderModal false email status = none :=
  rfl

/-- C8: a Tab or Shift+Tab key press that finds the focusable set of the
dialog panel empty prevents default navigation unconditionally, and moves no
focus: keyboard focus cannot escape the dialog through an empty focusable
set. -/
theorem empty_focusable_guard (shift : Bool) (a : Option Elem) (s : SystemState) :
    handleTab [] shift a = (true, none) ∧ step s (.keyTab [] shift) = s := by
  refine ⟨rfl, ?_⟩
  unfold step
  cases h : s.listenerAttached <;> simp [h, handleTab]

/-- C7: MarqueeRail renders exactly `2 * N` items from `N` logical items,
by duplicating the sequence exactly once in order (position `i` and position
`N + i` of the track both hold input item `i`), and the empty input renders
an empty track. -/
theorem marquee_duplication {T R : Type} (items : List T) (renderItem : T → Nat → R) :
    (marqueeItems items).length = 2 * items.length ∧
    (∀ i : Nat, i < items.length →
      (marqueeItems items)[i]? = items[i]? ∧
      (marqueeItems items)[items.length + i]? = items[i]?) ∧
    marqueeItems ([] : List T) = [] ∧
    renderedTrack ([] : List T) renderItem = [] ∧
    (renderedTrack items renderItem).length = 2 * items.length := by
  refine ⟨?_, ?_, rfl, rfl, ?_⟩
  · simp [marqueeItems, two_mul]
  · intro i hi
    constructor
    · rw [marqueeItems, List.getElem?_append, if_pos hi]
    · rw [marqueeItems, List.getElem?_append, if_neg (by omega)]
      congr 1
      omega
  · simp [renderedTrack, marqueeItems, two_mul]

end Bookhood
namespace Bookhood

/-- Witness for C7 at the concrete input `[10, 20]`. -/
theorem marquee_duplication_witness :
    (marqueeItems [10, 20]).length = 2 * 2 ∧
    (marqueeItems [10, 20])[1]? = some 20 ∧
    (marqueeItems [10, 20])[3]? = some 20 := by
  have h := marquee_duplication (T := Nat) (R := Nat) [10, 20] (fun a i => a + i)
  have h2 := h.2.1 1 (by norm_num)
  exact ⟨h.1, by rw [h2.1]; rfl, by simpa using h2.2⟩

/-- C2 fails on the code: with one logical item of width 100 and gap 10 the
track of 2 items is 210 wide, half of it is 105, the inter-copy offset is
110, but the translation distance `calc(-50% - gap)` is 115 — neither
exactly half the track length nor the offset that would pixel-align item
`i + N` with item `i`. -/
theorem marquee_distance_counterexample :
    marqueeDistance 1 100 10 ≠ trackLen (2 * 1) 100 10 / 2 ∧
    marqueeDistance 1 100 10 ≠ copyOffset 1 100 10 := by
  constructor <;> norm_num [marqueeDistance, trackLen, copyOffset]

/-- C2 amended: for every nonempty input of length `n` with uniform item
width `w` and gap `g`, the loop translation distance equals half the total
track length plus one gap, hence exceeds the exact inter-copy offset
`n * (w + g)` by `g / 2`; items `i` and `i + n` are pixel-aligned at the
loop boundary exactly in the gapless case `g = 0`. -/
theorem marquee_distance_amended (n : Nat) (w g : ℚ) (hn : 1 ≤ n) :
    marqueeDistance n w g = trackLen (2 * n) w g / 2 + g ∧
    marqueeDistance n w g = copyOffset n w g + g / 2 ∧
    (g = 0 → marqueeDistance n w g = copyOffset n w g) := by
  have h2n : ¬(2 * n = 0) := by omega
  have hcast : ((2 * n - 1 : Nat) : ℚ) = 2 * (n : ℚ) - 1 := by
    rw [Nat.cast_sub (by omega : 1 ≤ 2 * n)]
    push_cast
    ring
  refine ⟨rfl, ?_, ?_⟩
  · unfold marqueeDistance trackLen copyOffset
    rw [if_neg h2n, hcast]
    push_cast
    ring
  · intro hg
    unfold marqueeDistance trackLen copyOffset
    rw [if_neg h2n, hcast, hg]
    push_cast
    ring

/-- Witness for the amended C2 at `n = 2`, `w = 5`, `g = 3`. -/
theorem marquee_distance_amended_witness :
    marqueeDistance 2 5 3 = trackLen (2 * 2) 5 3 / 2 + 3 ∧
    marqueeDistance 2 5 3 = copyOffset 2 5 3 + 3 / 2 := by
  have h := marquee_distance_amended 2 5 3 (by norm_num)
  exact ⟨h.1, h.2.1⟩

/-- C4: the submit control is disabled exactly when the trimmed email is
empty, and whenever it is disabled both the native `disabled` attribute and
`aria-disabled` expose that state to assistive technology; the rendered
dialog's submit control carries exactly those attributes. -/
theorem submit_gating (s : String) :
    (isSubmitDisabled s = true ↔ jsTrim s = "") ∧
    (isSubmitDisabled s = false ↔ jsTrim s ≠ "") ∧
    (isSubmitDisabled s = true →
      (primaryCtaButton (isSubmitDisabled s)).disabled = true ∧
      (primaryCtaButton (isSubmitDisabled s)).ariaDisabled = some true) ∧
    (∀ st : SubmissionStatus, ∃ r : RenderedModal,
      renderModal true s st = some r ∧
      r.submitButton = primaryCtaButton (isSubmitDisabled s)) := by
  have key : isSubmitDisabled s = true ↔ jsTrim s = "" := by
    simp only [isSubmitDisabled, beq_iff_eq]
    exact string_length_eq_zero _
  refine ⟨key, ?_, ?_, ?_⟩
  · rw [Bool.eq_false_iff, Ne, key]
  · intro h
    simp [primaryCtaButton, h]
  · intro st
    exact ⟨_, rfl, rfl⟩

/-- Witness for C4 at the whitespace-only email `" "` (disabled, exposed to
assistive technology) and at `"a@b"` (enabled). -/
theorem submit_gating_witness :
    isSubmitDisabled " " = true ∧
    (primaryCtaButton (isSubmitDisabled " ")).disabled = true ∧
    (primaryCtaButton (isSubmitDisabled " ")).ariaDisabled = some true ∧
    isSubmitDisabled "a@b" = false := by
  have h1 := submit_gating " "
  have h2 := submit_gating "a@b"
  have hd : isSubmitDisabled " " = true := h1.1.mpr (by decide)
  exact ⟨hd, (h1.2.2.1 hd).1, (h1.2.2.1 hd).2, h2.2.1.mpr (by decide)⟩

end Bookhood
namespace Bookhood

/-- C3: after any sequence of events from page load, whenever the dialog is
closed the form state is reset — `email = ""` and `status = idle` — and
reopening therefore yields an open dialog with an empty email and idle
status: no form state persists across open/close cycles. -/
theorem reset_on_close (acts : List Action)
    (hclosed : (run initState acts).isOpen = false) :
    (run initState acts).email = "" ∧
    (run initState acts).status = .idle ∧
    (step (run initState acts) .openM).isOpen = true ∧
    (step (run initState acts) .openM).email = "" ∧
    (step (run initState acts) .openM).status = .idle := by
  obtain ⟨h1, -, -⟩ := inv_reach acts
  have he := h1 hclosed
  have hopen : step (run initState acts) .openM = openTransition (run initState acts) := by
    simp [step, hclosed]
  refine ⟨he.1, he.2, ?_, ?_, ?_⟩ <;>
    rw [hopen] <;> simp [openTransition, he.1, he.2]

/-- Witness for C3: open, type `"x"`, submit, close via the close button —
afterwards the dialog is closed with reset state, and reopening yields an
empty idle form. -/
theorem reset_on_close_witness :
    (run initState [.openM, .typeEmail "x", .submit, .closeBtn]).isOpen = false ∧
    (run initState [.openM, .typeEmail "x", .submit, .closeBtn]).email = "" ∧
    (run initState [.openM, .typeEmail "x", .submit, .closeBtn]).status = .idle ∧
    (step (run initState [.openM, .typeEmail "x", .submit, .closeBtn]) .openM).email = "" ∧
    (step (run initState [.openM, .typeEmail "x", .submit, .closeBtn]) .openM).status = .idle := by
  have h := reset_on_close [.openM, .typeEmail "x", .submit, .closeBtn] (by decide)
  exact ⟨by decide, h.1, h.2.1, h.2.2.2.1, h.2.2.2.2⟩

/-- C6: opening twice in a row equals opening once — the second open is a
no-op (React bails out on a state update to the current value), so `isOpen`
is true and the focus memory is recorded exactly once, from the
`document.activeElement` of the state before the first open; symmetrically,
every close path is a no-op while the dialog is already closed. -/
theorem open_idempotent (s : SystemState) :
    step (step s .openM) .openM = step s .openM ∧
    (step s .openM).isOpen = true ∧
    (s.isOpen = false → (step s .openM).lastFocused = s.active) ∧
    (s.isOpen = true → step s .openM = s) ∧
    (s.isOpen = false →
      step s .closeBtn = s ∧ step s .outsideClick = s ∧ step s .escape = s) := by
  cases ho : s.isOpen with
  | true =>
    refine ⟨?_, ?_, by simp [ho], fun _ => by simp [step, ho], by simp [ho]⟩
    · simp [step, ho]
    · simp [step, ho]
  | false =>
    have h1 : step s .openM = openTransition s := by simp [step, ho]
    refine ⟨?_, ?_, fun _ => ?_, by simp [ho], fun _ => ⟨?_, ?_, ?_⟩⟩
    · rw [h1]
      simp [step, openTransition]
    · rw [h1]; rfl
    · rw [h1]; rfl
    · simp [step, ho]
    · simp [step, ho]
    · cases hl : s.listenerAttached <;> simp [step, ho, hl]

/-- Witness for C6 from a concrete closed state whose active element is 5:
the focus memory after open is element 5, a second open changes nothing,
and closing while closed changes nothing. -/
theorem open_idempotent_witness :
    step (step { initState with active := some 5 } .openM) .openM =
      step { initState with active := some 5 } .openM ∧
    (step { initState with active := some 5 } .openM).isOpen = true ∧
    (step { initState with active := some 5 } .openM).lastFocused = some 5 ∧
    step { initState with active := some 5 } .closeBtn =
      { initState with active := some 5 } := by
  have h := open_idempotent { initState with active := some 5 }
  exact ⟨h.1, h.2.1, by rw [h.2.2.1 rfl], (h.2.2.2.2 rfl).1⟩

/-- C9: along every event sequence from page load, the focus-trap keydown
listener is attached exactly while the dialog is open and the deferred
focus timeout is pending only while it is open; every close path (close
button, outside click, Escape) detaches the listener and cancels the
pending timeout; and while the dialog is closed a Tab key press runs no
trap logic at all (the event leaves the state untouched). -/
theorem close_cleanup (acts : List Action) :
    ((run initState acts).listenerAttached = (run initState acts).isOpen) ∧
    ((run initState acts).timerPending = true → (run initState acts).isOpen = true) ∧
    ((run initState acts).isOpen = true →
      ∀ c ∈ [Action.closeBtn, Action.outsideClick, Action.escape],
        (step (run initState acts) c).listenerAttached = false ∧
        (step (run initState acts) c).timerPending = false ∧
        (step (run initState acts) c).isOpen = false) ∧
    ((run initState acts).isOpen = false →
      ∀ (dom : List Elem) (sh : Bool),
        step (run initState acts) (.keyTab dom sh) = run initState acts) := by
  obtain ⟨-, h2, h3⟩ := inv_reach acts
  refine ⟨h2, h3, ?_, ?_⟩
  · intro ho c hc
    have hl : (run initState acts).listenerAttached = true := by rw [h2, ho]
    simp only [List.mem_cons, List.not_mem_nil, or_false] at hc
    rcases hc with rfl | rfl | rfl <;>
      simp [step, ho, hl, closeTransition]
  · intro ho dom sh
    have hl : (run initState acts).listenerAttached = false := by rw [h2, ho]
    simp [step, hl]

/-- Witness for C9: after the single event `openM` the dialog is open with
the listener attached and the timer pending, and the close button detaches
the listener, cancels the timeout and closes the dialog. -/
theorem close_cleanup_witness :
    (run initState [Action.openM]).listenerAttached = (run initState [Action.openM]).isOpen ∧
    (step (run initState [Action.openM]) .closeBtn).listenerAttached = false ∧
    (step (run initState [Action.openM]) .closeBtn).timerPending = false ∧
    (step (run initState [Action.openM]) .closeBtn).isOpen = false := by
  have h := close_cleanup [Action.openM]
  have hc := h.2.2.1 (by decide) Action.closeBtn (by decide)
  exact ⟨h.1, hc.1, hc.2.1, hc.2.2⟩

end Bookhood
namespace Bookhood

/-- C1: while the focus-trap listener is attached, a Tab press whose
event-time focusable list has the active element last wraps focus to the
first element with default prevented, a Shift+Tab press with the active
element first wraps to the last element with default prevented, and a
subsequent press is handled against its own event-time focusable list (the
set is recomputed from the DOM per key press, never cached). -/
theorem focus_trap_wrap (l : List Elem) (hl : l ≠ []) (s : SystemState)
    (hA : s.listenerAttached = true) :
    (s.active = some (l.getLast hl) →
      handleTab l false s.active = (true, some (l.head hl)) ∧
      (step s (.keyTab l false)).active = some (l.head hl)) ∧
    (s.active = some (l.head hl) →
      handleTab l true s.active = (true, some (l.getLast hl)) ∧
      (step s (.keyTab l true)).active = some (l.getLast hl)) ∧
    (∀ (l₂ : List Elem) (h₂ : l₂ ≠ []),
      (step s (.keyTab l false)).active = some (l₂.getLast h₂) →
      (step (step s (.keyTab l false)) (.keyTab l₂ false)).active =
        some (l₂.head h₂)) := by
  refine ⟨?_, ?_, ?_⟩
  · intro ha
    have h1 := handleTab_wrap_forward l hl s.active ha
    exact ⟨h1, step_keyTab_focus s hA l false _ (by rw [h1])⟩
  · intro ha
    have h1 := handleTab_wrap_backward l hl s.active ha
    exact ⟨h1, step_keyTab_focus s hA l true _ (by rw [h1])⟩
  · intro l₂ h₂ hmid
    have hA₂ : (step s (.keyTab l false)).listenerAttached = true := by
      rw [step_keyTab_listener, hA]
    have h1 := handleTab_wrap_forward l₂ h₂ _ hmid
    exact step_keyTab_focus _ hA₂ l₂ false _ (by rw [h1])

/-- Witness for C1 with the focusable list `[1, 2, 3]`: Tab from element 3
wraps to 1, Shift+Tab from element 1 wraps to 3, each with default
prevented. -/
theorem focus_trap_wrap_witness :
    handleTab [1, 2, 3] false (some 3) = (true, some 1) ∧
    (step { initState with active := some 3, listenerAttached := true }
      (.keyTab [1, 2, 3] false)).active = some 1 ∧
    handleTab [1, 2, 3] true (some 1) = (true, some 3) ∧
    (step { initState with active := some 1, listenerAttached := true }
      (.keyTab [1, 2, 3] true)).active = some 3 := by
  have hback := focus_trap_wrap [1, 2, 3] (by decide)
    { initState with active := some 3, listenerAttached := true } rfl
  have hfwd := focus_trap_wrap [1, 2, 3] (by decide)
    { initState with active := some 1, listenerAttached := true } rfl
  exact ⟨(hback.1 rfl).1, (hback.1 rfl).2, (hfwd.2.1 rfl).1, (hfwd.2.1 rfl).2⟩

/-- C5: from an open idle dialog, activating submit with a non-empty trimmed
email transitions to success (keeping the dialog open and the email intact);
with an empty trimmed email the submit control is disabled, no submission
fires and the state is unchanged; no other event produces the success state
from idle; and the success render keeps the email field and the benefits
list underneath the success region. -/
theorem success_transition (s : SystemState) (hopen : s.isOpen = true)
    (hidle : s.status = .idle) :
    (jsTrim s.email ≠ "" →
      (step s .submit).status = .success ∧
      (step s .submit).isOpen = true ∧
      (step s .submit).email = s.email) ∧
    (jsTrim s.email = "" → step s .submit = s) ∧
    (∀ a : Action, a ≠ .submit → (step s a).status ≠ .success) ∧
    (∀ e : String, renderModal true e .success =
      some { emailField := true, emailValue := e, benefitsCount := 3,
             submitButton := primaryCtaButton (isSubmitDisabled e),
             successRegion := true, closeButton := true }) := by
  refine ⟨?_, ?_, ?_, fun e => rfl⟩
  · intro hne
    have hd : isSubmitDisabled s.email = false := by
      rw [Bool.eq_false_iff, Ne, isSubmitDisabled, beq_iff_eq,
        string_length_eq_zero]
      exact hne
    simp [step, hopen, hd]
  · intro heq
    have hd : isSubmitDisabled s.email = true := by
      rw [isSubmitDisabled, beq_iff_eq, string_length_eq_zero]
      exact heq
    simp [step, hd]
  · intro a ha
    cases a with
    | openM => simp [step, hopen, hidle]
    | closeBtn => simp [step, hopen, closeTransition]
    | outsideClick => simp [step, hopen, closeTransition]
    | insideClick => simp [step, hidle]
    | escape =>
      cases hl : s.listenerAttached <;>
        simp [step, hopen, hl, closeTransition, hidle]
    | typeEmail v => simp [step, hopen, hidle]
    | submit => exact absurd rfl ha
    | timerFire =>
      cases ht : s.timerPending <;> simp [step, ht, hidle]
    | keyTab dom sh =>
      rw [step_keyTab_status, hidle]
      exact fun h => nomatch h
    | userFocus e => simp [step, hidle]

/-- Witness for C5: an open idle dialog holding `"reader@example.com"`
transitions to success on submit, a whitespace-only email leaves the state
unchanged, and the success render keeps the email field and benefits list
under the success region. -/
theorem success_transition_witness :
    (step (run initState [.openM, .typeEmail "reader@example.com"]) .submit).status = .success ∧
    (renderModal true "reader@example.com" .success).isSome = true ∧
    step (run initState [.openM, .typeEmail " "]) .submit =
      run initState [.openM, .typeEmail " "] := by
  have h := success_transition (run initState [.openM, .typeEmail "reader@example.com"])
    (by decide) (by decide)
  have h0 := success_transition (run initState [.openM, .typeEmail " "])
    (by decide) (by decide)
  refine ⟨(h.1 (by decide)).1, ?_, h0.2.1 (by decide)⟩
  rw [h.2.2.2 "reader@example.com"]
  rfl

end Bookhood
